import Mathlib

/-!
Verification of `ipyida/kernel.py`, the module that embeds an IPython
kernel inside IDA. The Python module is shallowly embedded: each method
becomes a Lean function over explicit state, side effects become event
traces, and exceptions become explicit error results carried alongside
the trace.
-/

namespace IpyIda

/-! ## Stream Tee (`IDATeeOutStream.write`)

`write` forwards the string to the saved IDA sink (`_ida_stdout` or
`_ida_stderr`, captured at module load) when the stream's `name` matches
and the saved sink is truthy, and then always calls the engine's
`super().write`. A sink write may raise; the Python code has no
`try`/`except` around the forward, so a raised exception propagates and
the engine write is skipped. -/

/-- A saved host sink; `raises` records whether its `write` method raises. -/
structure HostSink where
  raises : Bool
deriving DecidableEq, Repr

/-- The module-level saved host sinks `_ida_stdout` / `_ida_stderr`.
`none` models a falsy (absent) saved sink. -/
structure TeeEnv where
  ida_stdout : Option HostSink
  ida_stderr : Option HostSink
deriving DecidableEq, Repr

/-- One observable effect of a tee write: a forward to the saved host sink
of the given role, or the engine's own (client-facing) write. -/
inductive WEvent where
  | host (role : String) (s : String)
  | engine (s : String)
deriving DecidableEq, Repr

/-- Outcome of a call: the events that happened, in order, and the
exception, if one propagated out. -/
structure WriteResult where
  trace : List WEvent
  err : Option String
deriving DecidableEq, Repr

/-- Embedding of `IDATeeOutStream.write(self, string)`:
if `self.name == "stdout" and _ida_stdout`, forward to `_ida_stdout`;
elif `self.name == "stderr" and _ida_stderr`, forward to `_ida_stderr`;
then `super().write(string)`. A raising host sink aborts the call. -/
def IDATeeOutStream.write (env : TeeEnv) (name : String) (s : String) : WriteResult :=
  if name = "stdout" then
    match env.ida_stdout with
    | some sink =>
      if sink.raises then ⟨[WEvent.host "stdout" s], some "host stdout sink raised"⟩
      else ⟨[WEvent.host "stdout" s, WEvent.engine s], none⟩
    | none => ⟨[WEvent.engine s], none⟩
  else if name = "stderr" then
    match env.ida_stderr with
    | some sink =>
      if sink.raises then ⟨[WEvent.host "stderr" s], some "host stderr sink raised"⟩
      else ⟨[WEvent.host "stderr" s, WEvent.engine s], none⟩
    | none => ⟨[WEvent.engine s], none⟩
  else ⟨[WEvent.engine s], none⟩

/-! ## Hook chain wrappers (`wrap_excepthook`, `wrap_displayhook`)

`wrap_excepthook(f)` returns a closure calling `_ida_excepthook(*args)`
then `f(*args)`; `wrap_displayhook` is identical with `_ida_displayhook`.
Neither wraps the first call in `try`/`except`, so an exception from the
previously-installed callback propagates before the new one runs.
Argument tuples are modelled as lists of integers. -/

/-- A process-wide hook callback; `raises args` says whether invoking it
with `args` raises. Invocation itself is recorded in the trace. -/
structure Hook where
  raises : List Int → Bool

/-- An invocation record: which underlying callback ran, with which
positional arguments. -/
inductive HEvent where
  | prev (args : List Int)
  | new (args : List Int)
deriving DecidableEq, Repr

/-- Outcome of invoking a wrapped hook: ordered invocation trace plus the
exception that propagated, if any. -/
structure HookResult where
  trace : List HEvent
  err : Option String
deriving DecidableEq, Repr

/-- Embedding of the closure returned by `wrap_excepthook(ipython_excepthook)`:
`_ida_excepthook(*args); ipython_excepthook(*args)`. -/
def ipyida_excepthook (ida_excepthook ipython_excepthook : Hook)
    (args : List Int) : HookResult :=
  if ida_excepthook.raises args then
    ⟨[HEvent.prev args], some "exception from previous excepthook"⟩
  else if ipython_excepthook.raises args then
    ⟨[HEvent.prev args, HEvent.new args], some "exception from new excepthook"⟩
  else
    ⟨[HEvent.prev args, HEvent.new args], none⟩

/-- Embedding of the closure returned by `wrap_displayhook(ipython_displayhook)`:
`_ida_displayhook(*args); ipython_displayhook(*args)`. -/
def ipyida_displayhook (ida_displayhook ipython_displayhook : Hook)
    (args : List Int) : HookResult :=
  if ida_displayhook.raises args then
    ⟨[HEvent.prev args], some "exception from previous displayhook"⟩
  else if ipython_displayhook.raises args then
    ⟨[HEvent.prev args, HEvent.new args], some "exception from new displayhook"⟩
  else
    ⟨[HEvent.prev args, HEvent.new args], none⟩

/-! ## Lifecycle controller (`IPythonKernel`), scheduler and run loop

Process-wide state is a `World`: the active `sys.stdout`/`sys.stderr`
sinks (sink identity modelled by a natural number, the saved IDA handles
being ids 0 and 1), the `IPKernelApp` singleton (present iff
`IPKernelApp.initialized()`), the IDA timer scheduler, and an event
trace. The environment `Env` holds the facts the code probes about its
collaborators: whether ipykernel >= 5 manages its own thread
(`is_using_ipykernel_5`), the engine's poll interval in seconds
(`app.kernel._poll_interval`), and the connection file the engine
allocates when initialized without a `-f` argument. -/

/-- Facts about the external collaborators probed by the code. -/
structure Env where
  ipykernel5 : Bool
  poll_interval : ℚ
  fresh_connection : String

/-- Embedding of `is_using_ipykernel_5()`: a capability probe on the
ipykernel collaborator. -/
def is_using_ipykernel_5 (env : Env) : Bool :=
  env.ipykernel5

/-- Python `int()` applied to a rational: truncation toward zero
(`Int.tdiv` is T-division and a rational's denominator is positive). -/
def pyInt (q : ℚ) : Int :=
  Int.tdiv q.num (Int.ofNat q.den)

/-- Observable side effects of the lifecycle code, in program order. -/
inductive Event where
  | appInit (connection_file : String)
  | kernelStart
  | printConn (connection_file : String)
  | doOneIteration
  | registerTimer (interval : Int)
  | unregisterTimer (handle : Nat)
deriving DecidableEq, Repr

/-- One registration held by the IDA timer scheduler: the handle returned
by `idaapi.register_timer`, the requested interval in milliseconds, and
the registered zero-argument callback (acting on the event trace and
returning the reschedule delay). -/
structure TimerReg where
  handle : Nat
  interval : Int
  cb : List Event → List Event × Int

/-- The IDA timer scheduler: a fresh-handle counter and the list of
currently active registrations. -/
structure SchedState where
  nextHandle : Nat
  active : List TimerReg

/-- The `IPKernelApp` singleton once created and initialized; it records
the connection file the app was bound to. -/
structure AppState where
  connection_file : String
deriving DecidableEq, Repr

/-- Process-wide mutable state. -/
structure World where
  sys_stdout : Nat
  sys_stderr : Nat
  app : Option AppState
  hooks_wrapped : Bool
  sched : SchedState
  events : List Event

/-- Identity of the saved IDA stdout sink `_ida_stdout` (captured at
module load, when it is also the active `sys.stdout`). -/
def ida_stdout_id : Nat := 0

/-- Identity of the saved IDA stderr sink `_ida_stderr`. -/
def ida_stderr_id : Nat := 1

/-- Identity of the `IDATeeOutStream` installed as `sys.stdout` by the
kernel app's initialization. -/
def tee_stdout_id : Nat := 2

/-- Identity of the `IDATeeOutStream` installed as `sys.stderr`. -/
def tee_stderr_id : Nat := 3

/-- The world at module load: the IDA sinks are the active ones, no app
singleton exists, hooks are unwrapped, the scheduler is empty. -/
def World.load : World :=
  { sys_stdout := ida_stdout_id
    sys_stderr := ida_stderr_id
    app := none
    hooks_wrapped := false
    sched := { nextHandle := 0, active := [] }
    events := [] }

/-- The `IPythonKernel` instance state: `self._timer` (an IDA timer
handle, or `None`) and `self.connection_file`. -/
structure IPythonKernel where
  timer : Option Nat
  connection_file : Option String
deriving DecidableEq, Repr

/-- Embedding of `IPythonKernel.__init__`: `self._timer = None;
self.connection_file = os.environ.get("JUPYTER_CONNECTION", None)`. -/
def IPythonKernel.new (jupyter_connection : Option String) : IPythonKernel :=
  { timer := none, connection_file := jupyter_connection }

/-- Embedding of `idaapi.register_timer(interval, callback)`: returns a
fresh handle and records the registration. -/
def register_timer (interval : Int) (cb : List Event → List Event × Int)
    (sc : SchedState) : Nat × SchedState :=
  (sc.nextHandle,
   { nextHandle := sc.nextHandle + 1
     active := sc.active ++ [{ handle := sc.nextHandle, interval := interval, cb := cb }] })

/-- Embedding of `idaapi.unregister_timer(handle)`: drops the
registration with that handle. -/
def unregister_timer (h : Nat) (sc : SchedState) : SchedState :=
  { sc with active := sc.active.filter (fun r => r.handle ≠ h) }

/-- Embedding of the closure `ipython_kernel_iteration` registered with
the IDA timer: `app.kernel.do_one_iteration(); return
int(1000 * app.kernel._poll_interval)`. -/
def ipython_kernel_iteration (env : Env) (events : List Event) : List Event × Int :=
  (events ++ [Event.doOneIteration], pyInt (1000 * env.poll_interval))

/-- Embedding of `IPythonKernel.start`. Raises "already running" when a
timer handle is present. Otherwise: obtain or create-and-initialize the
`IPKernelApp` singleton (creation binds the pre-supplied connection file
when present, else a fresh one; it replaces `sys.std{out,err}` with the
tee streams and wraps the except/display hooks), start the kernel,
record the connection file, print it, and — when ipykernel does not run
its own thread — perform one immediate iteration and register the
periodic IDA timer callback. -/
def IPythonKernel.start (env : Env) (w : World) (k : IPythonKernel) :
    Except String (World × IPythonKernel) :=
  if k.timer.isSome then
    Except.error "IPython kernel is already running."
  else
    let created : World × AppState :=
      match w.app with
      | some a => (w, a)
      | none =>
        let conn :=
          match k.connection_file with
          | some cf => cf
          | none => env.fresh_connection
        let a : AppState := { connection_file := conn }
        ({ w with
            app := some a
            sys_stdout := tee_stdout_id
            sys_stderr := tee_stderr_id
            hooks_wrapped := true
            events := w.events ++ [Event.appInit conn] }, a)
    let w₁ := created.1
    let app := created.2
    let w₂ := { w₁ with events := w₁.events ++ [Event.kernelStart] }
    let k₁ : IPythonKernel := { k with connection_file := some app.connection_file }
    let w₃ := { w₂ with events := w₂.events ++ [Event.printConn app.connection_file] }
    if is_using_ipykernel_5 env then
      Except.ok (w₃, k₁)
    else
      let w₄ := { w₃ with events := w₃.events ++ [Event.doOneIteration] }
      let interval := pyInt (1000 * env.poll_interval)
      let reg := register_timer interval (ipython_kernel_iteration env) w₄.sched
      let w₅ := { w₄ with
          sched := reg.2
          events := w₄.events ++ [Event.registerTimer interval] }
      Except.ok (w₅, { k₁ with timer := some reg.1 })

/-- Embedding of `IPythonKernel.stop`: unregister the timer if present,
clear `self._timer` and `self.connection_file` unconditionally, and
restore `sys.stdout`/`sys.stderr` to the saved IDA handles. -/
def IPythonKernel.stop (w : World) (k : IPythonKernel) : World × IPythonKernel :=
  let w₁ :=
    match k.timer with
    | some h =>
      { w with
          sched := unregister_timer h w.sched
          events := w.events ++ [Event.unregisterTimer h] }
    | none => w
  ({ w₁ with sys_stdout := ida_stdout_id, sys_stderr := ida_stderr_id },
   { timer := none, connection_file := none })

/-- Embedding of the `started` property: `self._timer is not None`. -/
def IPythonKernel.started (k : IPythonKernel) : Bool :=
  k.timer.isSome

/-- Embedding of the module-level `do_one_iteration()`: raise when
ipykernel >= 5 runs its own thread; otherwise run one iteration if the
app singleton is initialized, else raise "Kernel is not initialized". -/
def do_one_iteration (env : Env) (w : World) : Except String World :=
  if is_using_ipykernel_5 env then
    Except.error "Should not call this when ipykernel >= 5"
  else
    match w.app with
    | some _ => Except.ok { w with events := w.events ++ [Event.doOneIteration] }
    | none => Except.error "Kernel is not initialized"

/-! ## `IDATeeOutStream._setup_stream_redirects`

The method swaps `sys.std{out,err}` to the pre-IDAPython originals
(`sys.modules["__main__"]._orig_std{out,err}`), delegates to the
superclass method, and restores the IDA-overridden pair in a `finally`
block. The superclass step is an opaque parameter: it observes the
active stream pair and may replace it or raise; `try`/`finally` is
embedded by capturing its outcome, restoring, then propagating. -/

/-- The attributes of `sys.modules["__main__"]` the method reads: the
original, pre-IDAPython-override stream handles. -/
structure MainMod where
  orig_stdout : Nat
  orig_stderr : Nat
deriving DecidableEq, Repr

/-- The active `sys.stdout`/`sys.stderr` pair. -/
structure SysIO where
  stdout : Nat
  stderr : Nat
deriving DecidableEq, Repr

/-- Embedding of `IDATeeOutStream._setup_stream_redirects`: save the
active pair, install the originals, run the wrapped superclass step
`inner` (which sees the active pair and yields a possibly-changed pair
or raises), and in all cases restore the saved pair; the step's
exception, if any, propagates. Returns the final active pair and the
propagated exception. -/
def IDATeeOutStream.setup_stream_redirects (m : MainMod)
    (inner : SysIO → Except String SysIO) (s : SysIO) :
    SysIO × Option String :=
  let ida_ios := (s.stdout, s.stderr)
  let entry : SysIO := { stdout := m.orig_stdout, stderr := m.orig_stderr }
  match inner entry with
  | Except.ok _ => ({ stdout := ida_ios.1, stderr := ida_ios.2 }, none)
  | Except.error e => ({ stdout := ida_ios.1, stderr := ida_ios.2 }, some e)

/-! ## Helper lemmas -/

/-- Python `int()` of a rational with denominator 1 is exact. -/
theorem pyInt_den_one (q : ℚ) (h : q.den = 1) : (pyInt q : ℚ) = q := by
  have hn : pyInt q = q.num := by
    unfold pyInt
    rw [h]
    exact Int.tdiv_one q.num
  rw [hn]
  exact Rat.coe_int_num_of_den_eq_one h

/-- The fields of `IPythonKernel.stop`'s result that do not depend on the
prior timer state. -/
theorem stop_result_fields (w : World) (k : IPythonKernel) :
    (IPythonKernel.stop w k).1.sys_stdout = ida_stdout_id ∧
    (IPythonKernel.stop w k).1.sys_stderr = ida_stderr_id ∧
    (IPythonKernel.stop w k).2.timer = none ∧
    (IPythonKernel.stop w k).2.connection_file = none := by
  cases h : k.timer <;> simp [IPythonKernel.stop, h]

/-! ## Concrete fixtures used by witnesses and counterexamples -/

/-- Saved-sink environment with both IDA sinks present and working. -/
def teeBothOk : TeeEnv :=
  { ida_stdout := some { raises := false }, ida_stderr := some { raises := false } }

/-- Saved-sink environment whose stdout sink raises on write. -/
def teeStdoutRaises : TeeEnv :=
  { ida_stdout := some { raises := true }, ida_stderr := none }

/-- Saved-sink environment with both saved sinks absent. -/
def teeBothAbsent : TeeEnv :=
  { ida_stdout := none, ida_stderr := none }

/-- A hook that never raises. -/
def hookOk : Hook := { raises := fun _ => false }

/-- A hook that raises on every invocation. -/
def hookRaises : Hook := { raises := fun _ => true }

/-! ## Claims about the Stream Tee -/

/-- Claim C1: for every string written through `IDATeeOutStream.write`
while the saved host sink for the stream's role is present (and its
write succeeds), the host sink receives exactly that string and the
engine (client-facing) write also receives it, host sink first; a stream
named "stdout" forwards to the saved host stdout sink and one named
"stderr" forwards to the saved host stderr sink. -/
theorem tee_write_forwards_host_then_engine (env : TeeEnv) (s : String)
    (sink : HostSink) (hok : sink.raises = false) :
    (env.ida_stdout = some sink →
      IDATeeOutStream.write env "stdout" s =
        { trace := [WEvent.host "stdout" s, WEvent.engine s], err := none }) ∧
    (env.ida_stderr = some sink →
      IDATeeOutStream.write env "stderr" s =
        { trace := [WEvent.host "stderr" s, WEvent.engine s], err := none }) := by
  constructor <;> intro h <;> simp [IDATeeOutStream.write, h, hok]

/-- Witness for C1: a concrete write through a working saved stdout sink. -/
theorem tee_write_forwards_host_then_engine_witness :
    IDATeeOutStream.write teeBothOk "stdout" "hello" =
      { trace := [WEvent.host "stdout" "hello", WEvent.engine "hello"], err := none } :=
  (tee_write_forwards_host_then_engine teeBothOk "hello" { raises := false } rfl).1 rfl

/-- Counterexample for C5: with a saved stdout sink whose write raises,
`IDATeeOutStream.write` lets the exception propagate and the engine
write does not occur — the claim that the engine write still happens and
no exception escapes is false on the code. -/
theorem tee_write_raising_sink_counterexample :
    (IDATeeOutStream.write teeStdoutRaises "stdout" "x").err =
      some "host stdout sink raised" ∧
    WEvent.engine "x" ∉ (IDATeeOutStream.write teeStdoutRaises "stdout" "x").trace := by
  constructor
  · rfl
  · simp [IDATeeOutStream.write, teeStdoutRaises]

/-- Claim C5 (amended): if the saved host sink for the stream's role is
absent (falsy), the engine write still occurs and no exception
propagates; but if the saved host sink's write raises, the exception
propagates out of `write` and the engine write does not occur. -/
theorem tee_write_failure_isolation_amended (env : TeeEnv) (s : String) :
    (env.ida_stdout = none →
      IDATeeOutStream.write env "stdout" s =
        { trace := [WEvent.engine s], err := none }) ∧
    (∀ sink : HostSink, env.ida_stdout = some sink → sink.raises = true →
      IDATeeOutStream.write env "stdout" s =
        { trace := [WEvent.host "stdout" s], err := some "host stdout sink raised" }) ∧
    (env.ida_stderr = none →
      IDATeeOutStream.write env "stderr" s =
        { trace := [WEvent.engine s], err := none }) ∧
    (∀ sink : HostSink, env.ida_stderr = some sink → sink.raises = true →
      IDATeeOutStream.write env "stderr" s =
        { trace := [WEvent.host "stderr" s], err := some "host stderr sink raised" }) := by
  refine ⟨fun h => ?_, fun sink h hr => ?_, fun h => ?_, fun sink h hr => ?_⟩
  · simp [IDATeeOutStream.write, h]
  · simp [IDATeeOutStream.write, h, hr]
  · simp [IDATeeOutStream.write, h]
  · simp [IDATeeOutStream.write, h, hr]

/-- Witness for amended C5: concrete absent-sink and raising-sink writes. -/
theorem tee_write_failure_isolation_amended_witness :
    IDATeeOutStream.write teeBothAbsent "stdout" "x" =
      { trace := [WEvent.engine "x"], err := none } ∧
    IDATeeOutStream.write teeStdoutRaises "stdout" "x" =
      { trace := [WEvent.host "stdout" "x"], err := some "host stdout sink raised" } :=
  ⟨(tee_write_failure_isolation_amended teeBothAbsent "x").1 rfl,
   (tee_write_failure_isolation_amended teeStdoutRaises "x").2.1
     { raises := true } rfl rfl⟩

/-! ## Claims about the hook chain wrappers -/

/-- Counterexample for C6: when the previously-installed excepthook
raises on arguments `[1, 2]`, the new callback is never invoked — the
claim that both callbacks are invoked even when the previous one raises
is false on the code. -/
theorem hook_chain_prev_raises_counterexample :
    HEvent.new [1, 2] ∉
      (ipyida_excepthook { raises := fun _ => true } { raises := fun _ => false }
        [1, 2]).trace := by
  simp [ipyida_excepthook]

/-- Claim C6 (amended): invoking a wrapped hook chain with arguments
results in both the previous and the new callback having been invoked
with those arguments whenever the previous callback does not raise; when
the previous callback raises, its exception propagates and the new
callback is not invoked. -/
theorem hook_chain_both_invoked_amended (ida ipy : Hook) (args : List Int) :
    (ida.raises args = false →
      (ipyida_excepthook ida ipy args).trace = [HEvent.prev args, HEvent.new args] ∧
      (ipyida_displayhook ida ipy args).trace = [HEvent.prev args, HEvent.new args]) ∧
    (ida.raises args = true →
      (ipyida_excepthook ida ipy args).trace = [HEvent.prev args] ∧
      (ipyida_excepthook ida ipy args).err.isSome = true ∧
      (ipyida_displayhook ida ipy args).trace = [HEvent.prev args] ∧
      (ipyida_displayhook ida ipy args).err.isSome = true) := by
  constructor <;> intro h
  · by_cases h2 : ipy.raises args <;>
      simp [ipyida_excepthook, ipyida_displayhook, h, h2]
  · simp [ipyida_excepthook, ipyida_displayhook, h]

/-- Witness for amended C6: concrete non-raising and raising previous
callbacks. -/
theorem hook_chain_both_invoked_amended_witness :
    (ipyida_excepthook { raises := fun _ => false } { raises := fun _ => false }
      [3]).trace = [HEvent.prev [3], HEvent.new [3]] ∧
    (ipyida_excepthook { raises := fun _ => true } { raises := fun _ => false }
      [3]).trace = [HEvent.prev [3]] :=
  ⟨((hook_chain_both_invoked_amended { raises := fun _ => false }
      { raises := fun _ => false } [3]).1 rfl).1,
   ((hook_chain_both_invoked_amended { raises := fun _ => true }
      { raises := fun _ => false } [3]).2 rfl).1⟩

/-- Claim C7: a callback produced by `wrap_excepthook` or
`wrap_displayhook`, invoked with any positional arguments (on which the
previously-installed callback returns normally), calls the previous
callback first and the new callback second, passing each exactly the
arguments it was invoked with. -/
theorem hook_chain_order_prev_then_new (ida ipy : Hook) (args : List Int)
    (h : ida.raises args = false) :
    (ipyida_excepthook ida ipy args).trace = [HEvent.prev args, HEvent.new args] ∧
    (ipyida_displayhook ida ipy args).trace = [HEvent.prev args, HEvent.new args] := by
  by_cases h2 : ipy.raises args <;>
    simp [ipyida_excepthook, ipyida_displayhook, h, h2]

/-- Witness for C7: a concrete invocation of both wrapped hooks. -/
theorem hook_chain_order_prev_then_new_witness :
    (ipyida_excepthook { raises := fun _ => false } { raises := fun _ => false }
      [7, 8]).trace = [HEvent.prev [7, 8], HEvent.new [7, 8]] ∧
    (ipyida_displayhook { raises := fun _ => false } { raises := fun _ => false }
      [7, 8]).trace = [HEvent.prev [7, 8], HEvent.new [7, 8]] :=
  hook_chain_order_prev_then_new { raises := fun _ => false }
    { raises := fun _ => false } [7, 8] rfl

/-! ## Claim about `_setup_stream_redirects` -/

/-- Claim C9: during `IDATeeOutStream._setup_stream_redirects` the active
standard streams are temporarily the original pre-override handles — the
wrapped superclass step observes exactly `⟨orig_stdout, orig_stderr⟩` —
and the host-overridden pair active at entry is restored afterward, both
when the wrapped step returns and when it raises (its exception then
propagating). -/
theorem setup_stream_redirects_swap_and_restore (m : MainMod)
    (inner : SysIO → Except String SysIO) (s : SysIO) :
    (IDATeeOutStream.setup_stream_redirects m inner s).1 = s ∧
    (IDATeeOutStream.setup_stream_redirects m inner s).2 =
      (match inner { stdout := m.orig_stdout, stderr := m.orig_stderr } with
       | Except.ok _ => none
       | Except.error e => some e) := by
  cases h : inner { stdout := m.orig_stdout, stderr := m.orig_stderr } <;>
    simp [IDATeeOutStream.setup_stream_redirects, h]

/-! ## Lifecycle fixtures -/

/-- Environment with ipykernel < 5 (host-driven polling) and a 50 ms
poll interval (the engine reports 0.05 s). -/
def envManual : Env :=
  { ipykernel5 := false, poll_interval := 1/20, fresh_connection := "kernel-123.json" }

/-- Environment with ipykernel >= 5 (engine-driven threading). -/
def envThreaded : Env :=
  { ipykernel5 := true, poll_interval := 1/20, fresh_connection := "kernel-123.json" }

/-- A kernel instance whose timer handle is present. -/
def kRunning : IPythonKernel := { timer := some 0, connection_file := some "c" }

/-- A freshly constructed kernel instance with no environment-supplied
connection file. -/
def kIdle : IPythonKernel := IPythonKernel.new none

/-- The state after a successful first `start()` in manual-iteration
mode from the module-load world. -/
def startResultA : World × IPythonKernel :=
  match IPythonKernel.start envManual World.load kIdle with
  | Except.ok p => p
  | Except.error _ => (World.load, kIdle)

/-! ## Helper lemma about successful starts -/

/-- In manual-iteration mode a successful `start` leaves the timer
handle present (it is the scheduler's next fresh handle). -/
theorem start_ok_timer (env : Env) (w : World) (k : IPythonKernel)
    (p : World × IPythonKernel)
    (h5 : is_using_ipykernel_5 env = false)
    (h : IPythonKernel.start env w k = Except.ok p) :
    p.2.timer = some w.sched.nextHandle := by
  by_cases ht : k.timer.isSome
  · simp [IPythonKernel.start, ht] at h
  · simp only [Bool.not_eq_true] at ht
    cases happ : w.app with
    | some a =>
      simp [IPythonKernel.start, ht, happ, h5, register_timer] at h
      subst h
      rfl
    | none =>
      simp [IPythonKernel.start, ht, happ, h5, register_timer] at h
      subst h
      rfl

/-! ## Claims about the lifecycle controller -/

/-- Claim C2: `stop()` restores the process's active standard-output and
standard-error sinks to the very handles saved at module load (including
when never started, and after `start()` then `stop()`); when a timer
handle is present it is unregistered with the IDA scheduler; and the
timer handle and connection file are cleared regardless of prior
state. -/
theorem stop_restores_saved_host_handles (env : Env) (w : World) (k : IPythonKernel) :
    (IPythonKernel.stop w k).1.sys_stdout = ida_stdout_id ∧
    (IPythonKernel.stop w k).1.sys_stderr = ida_stderr_id ∧
    (IPythonKernel.stop w k).2.timer = none ∧
    (IPythonKernel.stop w k).2.connection_file = none ∧
    (∀ h, k.timer = some h →
      (IPythonKernel.stop w k).1.sched = unregister_timer h w.sched) ∧
    (k.timer = none →
      (IPythonKernel.stop w k).1.sched = w.sched ∧
      (IPythonKernel.stop w k).1.events = w.events) ∧
    (∀ p, IPythonKernel.start env w k = Except.ok p →
      (IPythonKernel.stop p.1 p.2).1.sys_stdout = ida_stdout_id ∧
      (IPythonKernel.stop p.1 p.2).1.sys_stderr = ida_stderr_id ∧
      (IPythonKernel.stop p.1 p.2).2.timer = none ∧
      (IPythonKernel.stop p.1 p.2).2.connection_file = none) := by
  obtain ⟨a1, a2, a3, a4⟩ := stop_result_fields w k
  refine ⟨a1, a2, a3, a4, ?_, ?_, ?_⟩
  · intro h hh
    simp [IPythonKernel.stop, hh]
  · intro hh
    simp [IPythonKernel.stop, hh]
  · intro p _
    exact stop_result_fields p.1 p.2

/-- Witness for C2: stopping a running instance, a never-started
instance, and a started-then-stopped instance, at concrete states. -/
theorem stop_restores_saved_host_handles_witness :
    (IPythonKernel.stop World.load kRunning).1.sys_stdout = ida_stdout_id ∧
    (IPythonKernel.stop World.load kRunning).1.sched = unregister_timer 0 World.load.sched ∧
    (IPythonKernel.stop World.load kIdle).1.events = World.load.events ∧
    (IPythonKernel.stop startResultA.1 startResultA.2).2.connection_file = none :=
  ⟨(stop_restores_saved_host_handles envManual World.load kRunning).1,
   (stop_restores_saved_host_handles envManual World.load kRunning).2.2.2.2.1 0 rfl,
   ((stop_restores_saved_host_handles envManual World.load kIdle).2.2.2.2.2.1 rfl).2,
   ((stop_restores_saved_host_handles envManual World.load kIdle).2.2.2.2.2.2
     startResultA rfl).2.2.2⟩

/-- Claim C3: starting an instance whose timer handle is present raises
"already running" (the check precedes any mutation, so the instance's
state — its connection file included — is untouched); in particular in
manual-iteration mode a second `start()` after a successful one
raises. -/
theorem start_already_running_raises (env : Env) (w : World) (k : IPythonKernel) :
    (k.started = true →
      IPythonKernel.start env w k = Except.error "IPython kernel is already running.") ∧
    (is_using_ipykernel_5 env = false →
      ∀ p, IPythonKernel.start env w k = Except.ok p →
        IPythonKernel.start env p.1 p.2 =
          Except.error "IPython kernel is already running.") := by
  constructor
  · intro h
    simp only [IPythonKernel.started] at h
    simp [IPythonKernel.start, h]
  · intro h5 p hp
    have ht := start_ok_timer env w k p h5 hp
    simp [IPythonKernel.start, ht]

/-- Witness for C3: a second `start()` on a concrete running instance
and after a concrete successful first `start()`. -/
theorem start_already_running_raises_witness :
    IPythonKernel.start envManual World.load kRunning =
      Except.error "IPython kernel is already running." ∧
    IPythonKernel.start envManual startResultA.1 startResultA.2 =
      Except.error "IPython kernel is already running." :=
  ⟨(start_already_running_raises envManual World.load kRunning).1 rfl,
   (start_already_running_raises envManual World.load kIdle).2 rfl startResultA rfl⟩

/-- Environment in manual-iteration mode whose engine reports a 1/3 s
poll interval, so `1000 * poll_interval` is not a whole number of
milliseconds. -/
def envThird : Env :=
  { ipykernel5 := false, poll_interval := 1/3, fresh_connection := "kernel-3.json" }

/-- The state after a successful first `start()` in manual mode under
the 1/3 s poll interval. -/
def startResultC : World × IPythonKernel :=
  match IPythonKernel.start envThird World.load kIdle with
  | Except.ok p => p
  | Except.error _ => (World.load, kIdle)

/-- Counterexample for C4: with an engine poll interval of 1/3 s, the
concrete first `start()` registers the timer with interval
`int(1000 * poll_interval)` milliseconds, and that truncated interval is
not equal to 1000 times the poll interval — `3 * int(1000/3) = 1000` has
no integer solution — so the claimed interval equality is false on the
code. -/
theorem start_manual_interval_truncation_counterexample :
    startResultC.1.sched.active = World.load.sched.active ++
      [{ handle := World.load.sched.nextHandle,
         interval := pyInt (1000 * envThird.poll_interval),
         cb := ipython_kernel_iteration envThird }] ∧
    ((pyInt (1000 * envThird.poll_interval) : ℚ) ≠ 1000 * envThird.poll_interval) := by
  constructor
  · rfl
  · intro hEq
    have h3 : ((3 * pyInt (1000 * envThird.poll_interval) : ℤ) : ℚ) = (1000 : ℚ) := by
      push_cast
      rw [hEq]
      norm_num [envThird]
    have h4 : (3 * pyInt (1000 * envThird.poll_interval) : ℤ) = 1000 := by
      exact_mod_cast h3
    omega

/-- Claim C4 (amended): in manual-iteration mode a successful `start()`
performs exactly one immediate iteration and then exactly one scheduler
registration — the appended events end with `doOneIteration` followed by
`registerTimer`, and no other iteration or registration occurs — whose
interval is `int(1000 * poll_interval)` milliseconds, that is, 1000
times the engine's poll interval truncated toward zero, equal to 1000
times the poll interval exactly when that product is a whole number of
milliseconds; the registered callback performs exactly one iteration per
invocation and returns that same interval as the reschedule delay. -/
theorem start_manual_mode_polls_and_registers (env : Env) (w : World)
    (k : IPythonKernel) (p : World × IPythonKernel)
    (h5 : is_using_ipykernel_5 env = false)
    (ht : k.timer = none)
    (hstart : IPythonKernel.start env w k = Except.ok p) :
    (∃ pre, p.1.events = w.events ++ (pre ++ [Event.doOneIteration,
        Event.registerTimer (pyInt (1000 * env.poll_interval))]) ∧
      Event.doOneIteration ∉ pre ∧ (∀ j, Event.registerTimer j ∉ pre)) ∧
    p.1.sched.active = w.sched.active ++
      [{ handle := w.sched.nextHandle,
         interval := pyInt (1000 * env.poll_interval),
         cb := ipython_kernel_iteration env }] ∧
    ((1000 * env.poll_interval).den = 1 →
      (pyInt (1000 * env.poll_interval) : ℚ) = 1000 * env.poll_interval) ∧
    (∀ es, ipython_kernel_iteration env es =
      (es ++ [Event.doOneIteration], pyInt (1000 * env.poll_interval))) := by
  have htt : k.timer.isSome = false := by simp [ht]
  cases happ : w.app with
  | some a =>
    simp [IPythonKernel.start, htt, happ, h5, register_timer] at hstart
    subst hstart
    refine ⟨⟨[Event.kernelStart, Event.printConn a.connection_file],
      by simp, by simp, by simp⟩, by simp,
      fun hden => pyInt_den_one _ hden, fun es => rfl⟩
  | none =>
    cases hcf : k.connection_file with
    | some cf =>
      simp [IPythonKernel.start, htt, happ, hcf, h5, register_timer] at hstart
      subst hstart
      refine ⟨⟨[Event.appInit cf, Event.kernelStart, Event.printConn cf],
        by simp, by simp, by simp⟩, by simp,
        fun hden => pyInt_den_one _ hden, fun es => rfl⟩
    | none =>
      simp [IPythonKernel.start, htt, happ, hcf, h5, register_timer] at hstart
      subst hstart
      refine ⟨⟨[Event.appInit env.fresh_connection, Event.kernelStart,
        Event.printConn env.fresh_connection],
        by simp, by simp, by simp⟩, by simp,
        fun hden => pyInt_den_one _ hden, fun es => rfl⟩

/-- Witness for amended C4: the concrete first start in manual mode at
a 0.05 s poll interval registers the callback, and there the truncated
interval is exactly 1000 times the poll interval. -/
theorem start_manual_mode_polls_and_registers_witness :
    startResultA.1.sched.active = World.load.sched.active ++
      [{ handle := World.load.sched.nextHandle,
         interval := pyInt (1000 * envManual.poll_interval),
         cb := ipython_kernel_iteration envManual }] ∧
    ((pyInt (1000 * envManual.poll_interval) : ℚ) = 1000 * envManual.poll_interval) := by
  have hq : (1000 * envManual.poll_interval : ℚ) = 50 := by
    norm_num [envManual]
  have hden : (1000 * envManual.poll_interval).den = 1 := by
    rw [hq]
    simp
  have h := start_manual_mode_polls_and_registers envManual World.load kIdle
    startResultA rfl rfl rfl
  exact ⟨h.2.1, h.2.2.1 hden⟩

/-- Claim C8: the module-level `do_one_iteration` raises when ipykernel
manages its own thread; with manual iteration it raises "Kernel is not
initialized" when the app singleton is absent and performs exactly one
iteration when it is present. -/
theorem do_one_iteration_cases (env : Env) (w : World) :
    (is_using_ipykernel_5 env = true →
      do_one_iteration env w = Except.error "Should not call this when ipykernel >= 5") ∧
    (is_using_ipykernel_5 env = false → w.app = none →
      do_one_iteration env w = Except.error "Kernel is not initialized") ∧
    (is_using_ipykernel_5 env = false → ∀ a, w.app = some a →
      do_one_iteration env w =
        Except.ok { w with events := w.events ++ [Event.doOneIteration] }) := by
  refine ⟨fun h => ?_, fun h ha => ?_, fun h a ha => ?_⟩
  · simp [do_one_iteration, h]
  · simp [do_one_iteration, h, ha]
  · simp [do_one_iteration, h, ha]

/-- Witness for C8: the three concrete cases. -/
theorem do_one_iteration_cases_witness :
    do_one_iteration envThreaded World.load =
      Except.error "Should not call this when ipykernel >= 5" ∧
    do_one_iteration envManual World.load = Except.error "Kernel is not initialized" ∧
    do_one_iteration envManual startResultA.1 =
      Except.ok { startResultA.1 with events := startResultA.1.events ++ [Event.doOneIteration] } :=
  ⟨(do_one_iteration_cases envThreaded World.load).1 rfl,
   (do_one_iteration_cases envManual World.load).2.1 rfl rfl,
   (do_one_iteration_cases envManual startResultA.1).2.2 rfl
     { connection_file := "kernel-123.json" } rfl⟩

/-- Claim C10: `stop()` clears the connection file unconditionally: for
an instance constructed with an environment-supplied connection file,
stopping before any start leaves the connection file `None`, so a
subsequent first `start()` initializes the engine with a freshly
allocated connection instead of the pre-supplied one. -/
theorem stop_clears_presupplied_connection (env : Env) (w : World) (cf : String)
    (happ : w.app = none) :
    (IPythonKernel.stop w (IPythonKernel.new (some cf))).2.connection_file = none ∧
    (∀ p, IPythonKernel.start env
        (IPythonKernel.stop w (IPythonKernel.new (some cf))).1
        (IPythonKernel.stop w (IPythonKernel.new (some cf))).2 = Except.ok p →
      p.2.connection_file = some env.fresh_connection ∧
      p.1.app = some { connection_file := env.fresh_connection }) := by
  constructor
  · rfl
  · intro p hp
    by_cases h5 : env.ipykernel5
    · simp [IPythonKernel.stop, IPythonKernel.new, IPythonKernel.start,
        is_using_ipykernel_5, h5, happ, register_timer] at hp
      subst hp
      exact ⟨rfl, rfl⟩
    · simp [IPythonKernel.stop, IPythonKernel.new, IPythonKernel.start,
        is_using_ipykernel_5, h5, happ, register_timer] at hp
      subst hp
      exact ⟨rfl, rfl⟩

/-- State after stopping a never-started instance that carried an
environment-supplied connection file. -/
def stopResultB : World × IPythonKernel :=
  IPythonKernel.stop World.load (IPythonKernel.new (some "preset.json"))

/-- State after the subsequent first start in manual mode. -/
def startResultB : World × IPythonKernel :=
  match IPythonKernel.start envManual stopResultB.1 stopResultB.2 with
  | Except.ok p => p
  | Except.error _ => (World.load, kIdle)

/-- Witness for C10: the concrete stop-then-start sequence binds the
fresh connection, not the pre-supplied one. -/
theorem stop_clears_presupplied_connection_witness :
    stopResultB.2.connection_file = none ∧
    startResultB.2.connection_file = some "kernel-123.json" ∧
    startResultB.1.app = some { connection_file := "kernel-123.json" } := by
  have h := stop_clears_presupplied_connection envManual World.load "preset.json" rfl
  exact ⟨h.1, (h.2 startResultB rfl).1, (h.2 startResultB rfl).2⟩

end IpyIda
